import Mathlib

/-!
Verification model of `assetman/S3UploadThread.py`.

The Python module is embedded shallowly:
* machine integers are `Nat` with explicit 32-bit masking where the source
  masks (`binascii.crc32(...) & 0xffffffff`);
* the S3 bucket is a `Store` value (list of existing keys, plus a list of
  keys whose `put` raises, modelling network/store failures); `put` and
  `exists` are pure state transitions;
* Python exceptions are surfaced as `Except`/`Option PyError` results:
  `AssertionError` from `assert isinstance(..., (list, tuple))` is
  `PyError.assertNotList`, `ZeroDivisionError` from `% len([])` is
  `PyError.zeroDivision`, `assert os.path.isfile` is `PyError.assertIsFile`;
* the five daemon worker threads drain a queue of independent tasks; the
  drain is modelled as a sequential fold (`run_tasks`), which is faithful
  for the write-set / error-list claims because tasks touch disjoint state
  except through the store, and the per-task logic threads the store;
* `re.sub(pattern, replacer, src)` over the pattern produced by
  `assetman.tools.get_static_pattern` is modelled on the match decomposition
  of the text: a blob is a list of `Piece`s, alternating literal gaps
  (text the pattern does not match) and matches (the captured relative
  path); `group(0)` of a match is the static-url marker followed by the
  relative path.

`assetman.tools` is not part of the sources; its three functions are
modelled from the spec where noted.
-/

namespace Assetman

/-! ## Bytes and CRC-32 (`_utf8`, `_crc`, `binascii.crc32`) -/

/-- UTF-8 encoding of one character, as byte values (models Python
`unicode.encode("utf-8")` character-wise). -/
def utf8EncodeCh (c : Char) : List Nat :=
  let n := c.toNat
  if n < 0x80 then [n]
  else if n < 0x800 then
    [0xC0 ||| (n >>> 6), 0x80 ||| (n &&& 0x3F)]
  else if n < 0x10000 then
    [0xE0 ||| (n >>> 12), 0x80 ||| ((n >>> 6) &&& 0x3F), 0x80 ||| (n &&& 0x3F)]
  else
    [0xF0 ||| (n >>> 18), 0x80 ||| ((n >>> 12) &&& 0x3F),
     0x80 ||| ((n >>> 6) &&& 0x3F), 0x80 ||| (n &&& 0x3F)]

/-- UTF-8 bytes of a string (models `_utf8`: encode unicode as utf-8). -/
def utf8Bytes (s : String) : List Nat :=
  s.data.foldr (fun c acc => utf8EncodeCh c ++ acc) []

/-- One bit step of the reflected CRC-32 (polynomial 0xEDB88320). -/
def crcStep (c : Nat) : Nat :=
  if c % 2 = 1 then (c / 2) ^^^ 0xEDB88320 else c / 2

/-- Absorb one byte into a running CRC-32 state. -/
def crcByte (c b : Nat) : Nat := crcStep^[8] (c ^^^ b)

/-- CRC-32 of a byte list: the checksum computed by `binascii.crc32`,
taken as its unsigned 32-bit value. -/
def crc32 (bs : List Nat) : Nat :=
  (bs.foldl crcByte 0xFFFFFFFF) ^^^ 0xFFFFFFFF

/-- Models `_crc(key)`: `binascii.crc32(_utf8(key)) & 0xffffffff`. -/
def _crc (key : String) : Nat := crc32 (utf8Bytes key) &&& 0xffffffff

/-! ## Python-ish values and errors -/

/-- The duck-typed `replacement_prefix` setting: a plain string, or a
list/tuple of strings (sharded CDN domains). -/
inductive PyStrOrList where
  | str (s : String)
  | list (l : List String)
deriving DecidableEq, Repr

/-- Exceptions a task body can raise. -/
inductive PyError where
  /-- `AssertionError` from `assert os.path.isfile(file_path)` in
  `start_upload_file`; carries the missing path. -/
  | assertIsFile (path : String)
  /-- `AssertionError` from `assert isinstance(settings_list, (list, tuple))`
  in `get_shard_from_list`. -/
  | assertNotList
  /-- `ZeroDivisionError` from `shard_id % len(settings_list)` when the
  list is empty. -/
  | zeroDivision
  /-- A failed `key.set_contents_from_string` (network/store error),
  carrying the key. -/
  | putFailed (key : String)
deriving DecidableEq, Repr

/-! ## String helpers (`str.lstrip`, `str.rstrip` with `'/'`) -/

/-- Python `s.lstrip('/')`. -/
def lstripSlash (s : String) : String :=
  String.mk (s.data.dropWhile (fun c => c = '/'))

/-- Python `s.rstrip('/')`. -/
def rstripSlash (s : String) : String :=
  String.mk ((s.data.reverse.dropWhile (fun c => c = '/')).reverse)

/-- Python `s.lstrip('/').rstrip('/')`, as applied to
`local_cdn_url_prefix` in `start_upload_file`. -/
def stripSlash (s : String) : String := rstripSlash (lstripSlash s)

/-- Case-sensitive suffix test on strings (the effect of anchoring a
literal alternative with `$` in `re.search`). -/
def endsWithStr (s pat : String) : Bool := List.isSuffixOf pat.data s.data

/-! ## Shard selection (`get_shard_from_list`) -/

/-- Models `get_shard_from_list(settings_list, shard_id)`:
assert the argument is a list/tuple, CRC the id, index modulo length.
An empty list passes the assert and raises `ZeroDivisionError` at
`shard_id % len(settings_list)`. -/
def get_shard_from_list (settings_list : PyStrOrList) (shard_id : String) :
    Except PyError String :=
  match settings_list with
  | .str _ => .error .assertNotList
  | .list l =>
    if h : l.length = 0 then .error .zeroDivision
    else
      .ok (l.get ⟨_crc shard_id % l.length,
        Nat.mod_lt _ (Nat.pos_of_ne_zero h)⟩)

/-! ## Manifest -/

/-- A manifest dependency spec; the model keeps the one field the uploader
reads. -/
structure DepSpec where
  versioned_path : String
deriving DecidableEq, Repr

/-- The manifest: `blocks` and `assets`, each an association from a path
to a dependency spec (Python dicts, modelled as association lists). -/
structure Manifest where
  blocks : List (String × DepSpec)
  assets : List (String × DepSpec)
deriving DecidableEq, Repr

/-- Models `path in manifest['assets']` / `manifest['assets'][path]`. -/
def lookupAsset (m : Manifest) (path : String) : Option DepSpec :=
  (m.assets.find? (fun kv => kv.1 == path)).map (fun kv => kv.2)

/-! ## The static-URL pattern and text blobs

`get_static_pattern` lives in `assetman.tools`, outside the sources. -/

/-- Modelled from the spec: a text blob, decomposed against the pattern
returned by `get_static_pattern(static_url_prefix)` (absent from src/).
The pattern captures the static-prefix marker and the following relative
path; a blob is the alternating list of non-matching literal gaps and
matches, where a match carries its captured relative path. -/
inductive Piece where
  /-- A maximal run of text the pattern does not match. -/
  | lit (s : String)
  /-- One match: `group(1)` is the static-url marker, `group(2)` is `rel`. -/
  | hit (rel : String)
deriving DecidableEq, Repr

/-- Whether a piece is a literal gap. -/
def Piece.isLit : Piece → Bool
  | .lit _ => true
  | .hit _ => false

/-- The original text of a blob: gaps verbatim, each match rendered as
`group(0)` = static-url marker ++ relative path. -/
def renderBlob (sup : String) : List Piece → String
  | [] => ""
  | .lit s :: ps => s ++ renderBlob sup ps
  | .hit rel :: ps => (sup ++ rel) ++ renderBlob sup ps

/-- Modelled from the spec: `make_static_path` (assetman.tools, absent
from src/) resolves a match's relative path to the canonical static path
used as the manifest key. -/
def make_static_path (static_dir rel : String) : String :=
  static_dir ++ "/" ++ rel

/-- Modelled from the spec: `make_output_path` (assetman.tools, absent
from src/) maps a versioned file name into the compiled-output directory. -/
def make_output_path (output_dir file_name : String) : String :=
  output_dir ++ "/" ++ file_name

/-! ## URL rewriting (`sub_static_version`) -/

/-- The `replacer` closure of `sub_static_version`, applied to one match
(or passing a gap through): look the canonical path up in
`manifest['assets']`; if found, pick the prefix (sharding when the
replacement is a list/tuple) and emit
`prefix.rstrip('/') + '/' + versioned_path.lstrip('/')`; if missing, log
and return `match.group(0)` unchanged. -/
def replacePiece (m : Manifest) (rp : PyStrOrList) (sup sd : String) :
    Piece → Except PyError String
  | .lit s => .ok s
  | .hit rel =>
    let path := make_static_path sd rel
    match lookupAsset m path with
    | some dep =>
      match rp with
      | .list l =>
        match get_shard_from_list (.list l) dep.versioned_path with
        | .error e => .error e
        | .ok p => .ok (rstripSlash p ++ "/" ++ lstripSlash dep.versioned_path)
      | .str s =>
        .ok (rstripSlash s ++ "/" ++ lstripSlash dep.versioned_path)
    | none => .ok (sup ++ rel)

/-- Models `re.sub` over the decomposed blob: concatenate the replaced pieces;
an exception in the replacer propagates. -/
def subPieces (m : Manifest) (rp : PyStrOrList) (sup sd : String) :
    List Piece → Except PyError String
  | [] => .ok ""
  | p :: ps =>
    match replacePiece m rp sup sd p with
    | .error e => .error e
    | .ok r =>
      match subPieces m rp sup sd ps with
      | .error e => .error e
      | .ok rest => .ok (r ++ rest)

/-- Models `sub_static_version(src, manifest, replacement_prefix,
static_url_prefix)` (plus the static dir consumed by the spec-modelled
`make_static_path`). -/
def sub_static_version (src : List Piece) (m : Manifest)
    (rp : PyStrOrList) (sup sd : String) : Except PyError String :=
  subPieces m rp sup sd src

/-! ## The object store and the upload pipeline -/

/-- The S3 bucket, as the uploader observes it: the set of existing keys
(`key.exists()`), plus the keys whose `set_contents_from_string` raises
(modelling store/network failures). -/
structure Store where
  keys : List String
  failPut : List String
deriving DecidableEq, Repr

/-- One object-store write: destination key and stored body. -/
structure Write where
  key : String
  body : String
deriving DecidableEq, Repr

/-- The settings read by the uploader (`settings.get(...)`), plus the two
directories consumed by the spec-modelled `assetman.tools` functions. -/
structure Settings where
  cdnUrlPre : PyStrOrList
  localCdnUrlPre : String
  staticUrlPre : String
  staticDir : String
  outputDir : String
deriving DecidableEq, Repr

/-- Models `key.set_contents_from_string(file_data, headers, replace=False)`:
raises for keys in `failPut`, otherwise records the write and makes the
key exist. -/
def s3put (store : Store) (k body : String) :
    Store × List Write × Option PyError :=
  if k ∈ store.failPut then (store, [], some (.putFailed k))
  else ({ store with keys := k :: store.keys }, [⟨k, body⟩], none)

/-- Models `re.search(r'\.(css|js)$', key.name)`: case-sensitive. -/
def rewriteEligible (name : String) : Bool :=
  endsWithStr name ".css" || endsWithStr name ".js"

/-- Models `S3UploadThread.upload_file(key, file_data, headers, for_cdn)`:
skip when the key exists; otherwise rewrite `.css`/`.js` bodies with
`sub_static_version` (target prefix chosen by `for_cdn`) and put. -/
def upload_file (store : Store) (st : Settings) (m : Manifest)
    (keyName : String) (fileData : List Piece) (forCdn : Bool) :
    Store × List Write × Option PyError :=
  if keyName ∈ store.keys then (store, [], none)
  else if rewriteEligible keyName then
    match sub_static_version fileData m
        (if forCdn then st.cdnUrlPre else .str st.localCdnUrlPre)
        st.staticUrlPre st.staticDir with
    | .error e => (store, [], some e)
    | .ok newData => s3put store keyName newData
  else s3put store keyName (renderBlob st.staticUrlPre fileData)

/-- Models `S3UploadThread.start_upload_file(file_name, file_path)`:
assert the path is a regular file (the filesystem is `fs`), read it once,
upload to the bare CDN key, then to the stripped-local-prefix proxy key;
an exception from the first upload propagates before the second starts. -/
def start_upload_file (store : Store) (st : Settings) (m : Manifest)
    (fs : String → Option (List Piece)) (file_name file_path : String) :
    Store × List Write × Option PyError :=
  match fs file_path with
  | none => (store, [], some (.assertIsFile file_path))
  | some fileData =>
    let (s1, w1, e1) := upload_file store st m file_name fileData true
    match e1 with
    | some e => (s1, w1, some e)
    | none =>
      let keyPre := stripSlash st.localCdnUrlPre
      let (s2, w2, e2) :=
        upload_file s1 st m (keyPre ++ "/" ++ file_name) fileData false
      (s2, w1 ++ w2, e2)

/-- One iteration of `S3UploadThread.run`: execute the task; on an
exception append `(exc_info, worker)` to the shared error list and
continue. -/
def run_task (store : Store) (st : Settings) (m : Manifest)
    (fs : String → Option (List Piece)) (wid : Nat)
    (errs : List (PyError × Nat)) (t : String × String) :
    Store × List Write × List (PyError × Nat) :=
  let (s1, ws, e) := start_upload_file store st m fs t.1 t.2
  (s1, ws, match e with | some err => errs ++ [(err, wid)] | none => errs)

/-- The worker pool draining the queue: tasks are independent, so the
drain is modelled as a sequential fold of `run_task`. -/
def run_tasks (st : Settings) (m : Manifest)
    (fs : String → Option (List Piece)) (wid : Nat) :
    Store → List (PyError × Nat) → List (String × String) →
    Store × List Write × List (PyError × Nat)
  | store, errs, [] => (store, [], errs)
  | store, errs, t :: ts =>
    let (s1, w1, errs1) := run_task store st m fs wid errs t
    let (s2, w2, errs2) := run_tasks st m fs wid s1 errs1 ts
    (s2, w1 ++ w2, errs2)

/-! ## Task-set assembly and the orchestrator (`upload_assets`) -/

/-- Models `re.compile(r'\.(scss|less|css|js|html)$', re.I).search`: the
case-insensitive eligibility filter on `manifest['assets']` paths. -/
def should_skip (p : String) : Bool :=
  let lp := p.toLower
  endsWithStr lp ".scss" || endsWithStr lp ".less" || endsWithStr lp ".css"
    || endsWithStr lp ".js" || endsWithStr lp ".html"

/-- Models `set.add` on the `to_upload` set of `(file_name, file_path)` pairs. -/
def addToSet (s : List (String × String)) (x : String × String) :
    List (String × String) :=
  if x ∈ s then s else s ++ [x]

/-- The `manifest['blocks']` loop of `upload_assets`: each block's
versioned path through `make_output_path`, asserting the compiled file
exists (the `AssertionError` message is the error value). -/
def collect_blocks (st : Settings) (fs : String → Option (List Piece)) :
    List (String × DepSpec) → List (String × String) →
    Except String (List (String × String))
  | [], acc => .ok acc
  | (_, dep) :: rest, acc =>
    if (fs (make_output_path st.outputDir dep.versioned_path)).isSome then
      collect_blocks st fs rest (addToSet acc
        (dep.versioned_path, make_output_path st.outputDir dep.versioned_path))
    else
      .error ("Missing compiled asset " ++
        make_output_path st.outputDir dep.versioned_path)

/-- The `manifest['assets']` loop of `upload_assets`: skip style/script/
markup sources, assert the file exists, and add the pair. -/
def collect_assets (st : Settings) (fs : String → Option (List Piece)) :
    List (String × DepSpec) → List (String × String) →
    Except String (List (String × String))
  | [], acc => .ok acc
  | (file_path, dep) :: rest, acc =>
    if should_skip file_path then collect_assets st fs rest acc
    else if (fs file_path).isSome then
      collect_assets st fs rest (addToSet acc (dep.versioned_path, file_path))
    else .error ("Missing static asset " ++ file_path)

/-- The task-set assembly of `upload_assets`: blocks first, then the
filtered assets, deduplicated with set semantics. -/
def collect_to_upload (m : Manifest) (st : Settings)
    (fs : String → Option (List Piece)) :
    Except String (List (String × String)) :=
  match collect_blocks st fs m.blocks [] with
  | .error e => .error e
  | .ok acc => collect_assets st fs m.assets acc

/-- Models `upload_assets(manifest, settings, skip)`: assemble the task
set (asserting every referenced file exists), short-circuit on `skip`,
otherwise drain the queue through the pool and succeed iff the shared
error list stayed empty.  The `.ok` payload is
`(final store, writes performed, error list, boolean result)`. -/
def upload_assets (m : Manifest) (st : Settings)
    (fs : String → Option (List Piece)) (store : Store) (skip : Bool) :
    Except String (Store × List Write × List (PyError × Nat) × Bool) :=
  match collect_to_upload m st fs with
  | .error e => .error e
  | .ok tasks =>
    if skip then .ok (store, [], [], true)
    else
      let (s2, ws, errs) := run_tasks st m fs 0 store [] tasks
      .ok (s2, ws, errs, errs.isEmpty)

/-- Whether an `Except` computation finished without raising. -/
def isOkE {ε α : Type} : Except ε α → Bool
  | .ok _ => true
  | .error _ => false

/-! ## Concrete fixtures used by counterexamples and witnesses -/

/-- A manifest with one static asset (a logo image). -/
def mAssets : Manifest := ⟨[], [("static/logo.png", ⟨"logo.v9.png"⟩)]⟩

/-- A manifest with one block whose compiled output is an image. -/
def mImg : Manifest := ⟨[("img", ⟨"img.v1.png"⟩)], []⟩

/-- A manifest whose block output file is absent from `fsEx`. -/
def mMissing : Manifest := ⟨[("app", ⟨"app.v1.js"⟩)], []⟩

/-- Example settings: one CDN domain, `/cdn/` local proxy, `/static/`
static-url marker. -/
def exSettings : Settings :=
  ⟨.list ["http://cdn1"], "/cdn/", "/static/", "static", "out"⟩

/-- Example filesystem: one stylesheet referencing the logo, one image. -/
def fsEx : String → Option (List Piece) := fun p =>
  if p = "out/site.v2.css" then
    some [Piece.lit "url(", Piece.hit "logo.png", Piece.lit ")"]
  else if p = "out/img.v1.png" then some [Piece.lit "PNG"]
  else none

/-- A store that already holds the CDN copy of the image only. -/
def storeCdnOnly : Store := ⟨["img.v1.png"], []⟩

/-- A store that already holds both destination keys of the image task. -/
def storeFull : Store := ⟨["img.v1.png", "cdn/img.v1.png"], []⟩

/-- A store whose put of the bare image key raises. -/
def storeFailCdn : Store := ⟨[], ["img.v1.png"]⟩

end Assetman

namespace Assetman

/-! ## Shared helper lemmas -/

theorem subPieces_append (m : Manifest) (rp : PyStrOrList) (sup sd : String)
    (a b : List Piece) :
    subPieces m rp sup sd (a ++ b) =
      match subPieces m rp sup sd a with
      | .error e => .error e
      | .ok x =>
        match subPieces m rp sup sd b with
        | .error e => .error e
        | .ok y => .ok (x ++ y) := by
  induction a with
  | nil =>
    cases hb : subPieces m rp sup sd b <;>
      simp [subPieces, hb, String.empty_append]
  | cons p a ih =>
    cases hp : replacePiece m rp sup sd p <;>
      cases ha : subPieces m rp sup sd a <;>
        cases hb : subPieces m rp sup sd b <;>
          simp [subPieces, hp, ha, hb, ih, String.append_assoc]

/-! ## Claim theorems -/

/-- C3: for a non-empty list of candidate strings `l` and any key,
`get_shard_from_list` returns `l[_crc key % l.length]` — the CRC-32 of
the UTF-8 encoding of the key, masked to an unsigned 32-bit value,
reduced modulo the length — and the result is a member of `l`; being a
pure function, identical inputs yield the identical element. -/
theorem get_shard_from_list_spec (l : List String) (key : String)
    (h : l ≠ []) :
    ∃ hlt : _crc key % l.length < l.length,
      get_shard_from_list (PyStrOrList.list l) key =
        Except.ok (l.get ⟨_crc key % l.length, hlt⟩) ∧
      ∀ r, get_shard_from_list (PyStrOrList.list l) key = Except.ok r →
        r ∈ l := by
  have hne : l.length ≠ 0 := fun h0 => h (List.length_eq_zero.mp h0)
  refine ⟨Nat.mod_lt _ (Nat.pos_of_ne_zero hne), ?_, ?_⟩
  · simp [get_shard_from_list, hne]
  · intro r hr
    simp [get_shard_from_list, hne] at hr
    exact hr ▸ l.get_mem _ _

/-- C3 witness: concrete evaluation of the shard selector on
`["a","b","c"]` and key `"x"` via the theorem. -/
theorem get_shard_from_list_spec_witness :
    get_shard_from_list (PyStrOrList.list ["a", "b", "c"]) "x" =
      Except.ok "a" ∧ "a" ∈ ["a", "b", "c"] := by
  obtain ⟨hlt, heq, hmem⟩ :=
    get_shard_from_list_spec ["a", "b", "c"] "x" (by decide)
  have h1 : get_shard_from_list (PyStrOrList.list ["a", "b", "c"]) "x" =
      Except.ok "a" := by rw [heq]; rfl
  exact ⟨h1, hmem "a" h1⟩

/-- C8 counterexample: on an empty candidate list the shard selector does
not fail with the input-validation assertion — the `isinstance` assert
passes and `% len([])` raises `ZeroDivisionError` instead. -/
theorem get_shard_empty_division_error :
    get_shard_from_list (PyStrOrList.list []) "k" =
      Except.error PyError.zeroDivision ∧
    PyError.zeroDivision ≠ PyError.assertNotList :=
  ⟨rfl, by decide⟩

/-- C8 (amended): the shard selector fails for empty or non-sequence
candidates, with the input-validation assertion error when the argument
is not a list/tuple, and with a division-by-zero error when the list is
empty. -/
theorem get_shard_invalid_input (s key : String) :
    get_shard_from_list (PyStrOrList.str s) key =
      Except.error PyError.assertNotList ∧
    get_shard_from_list (PyStrOrList.list []) key =
      Except.error PyError.zeroDivision :=
  ⟨rfl, rfl⟩

/-- C9: a blob with zero static-URL matches (only literal gaps) is
returned unchanged by the rewriter, for any manifest and any replacement
prefix value. -/
theorem sub_static_version_no_match_identity (src : List Piece)
    (m : Manifest) (rp : PyStrOrList) (sup sd : String)
    (h : src.all Piece.isLit = true) :
    sub_static_version src m rp sup sd = Except.ok (renderBlob sup src) := by
  induction src with
  | nil => rfl
  | cons p ps ih =>
    rw [List.all_cons, Bool.and_eq_true] at h
    obtain ⟨h1, h2⟩ := h
    cases p with
    | lit s =>
      have hps := ih h2
      unfold sub_static_version at hps ⊢
      simp [subPieces, replacePiece, renderBlob, hps]
    | hit rel => simp [Piece.isLit] at h1

/-- C7: a match whose canonical static path is absent from
`manifest['assets']` is passed through verbatim — the replacer returns
`match.group(0)` (marker ++ relative path), only logs, and does not
raise at that site. -/
theorem sub_static_version_missing_verbatim (m : Manifest)
    (rp : PyStrOrList) (sup sd rel : String) (b1 b2 : List Piece)
    (s1 s2 : String)
    (hmiss : lookupAsset m (make_static_path sd rel) = none)
    (h1 : subPieces m rp sup sd b1 = Except.ok s1)
    (h2 : subPieces m rp sup sd b2 = Except.ok s2) :
    sub_static_version (b1 ++ Piece.hit rel :: b2) m rp sup sd =
      Except.ok (s1 ++ (sup ++ rel) ++ s2) := by
  unfold sub_static_version
  rw [subPieces_append, h1]
  simp [subPieces, replacePiece, hmiss, h2, String.append_assoc]

/-- C7 witness: a stylesheet referencing an unmanifested asset keeps the
original matched text. -/
theorem sub_static_version_missing_verbatim_witness :
    sub_static_version
      [Piece.lit "url(", Piece.hit "missing.png", Piece.lit ")"] mAssets
      (PyStrOrList.str "/cdn/") "/static/" "static" =
      Except.ok ("url(" ++ ("/static/" ++ "missing.png") ++ ")") :=
  sub_static_version_missing_verbatim mAssets (PyStrOrList.str "/cdn/")
    "/static/" "static" "missing.png" [Piece.lit "url("] [Piece.lit ")"]
    "url(" ")" (by decide) rfl rfl

/-- C2: a match whose canonical static path is in `manifest['assets']`
is replaced by `prefix.rstrip('/') + '/' + versioned_path.lstrip('/')`,
where the prefix is the scalar replacement value, or, when the
replacement value is a list/tuple, the candidate chosen by the shard
selector keyed on the versioned path. -/
theorem sub_static_version_replaces_found (m : Manifest)
    (rp : PyStrOrList) (sup sd rel : String) (dep : DepSpec)
    (b1 b2 : List Piece) (s1 s2 : String)
    (hfound : lookupAsset m (make_static_path sd rel) = some dep)
    (h1 : subPieces m rp sup sd b1 = Except.ok s1)
    (h2 : subPieces m rp sup sd b2 = Except.ok s2) :
    (∀ s, rp = PyStrOrList.str s →
      sub_static_version (b1 ++ Piece.hit rel :: b2) m rp sup sd =
        Except.ok (s1 ++
          (rstripSlash s ++ "/" ++ lstripSlash dep.versioned_path) ++ s2)) ∧
    (∀ l c, rp = PyStrOrList.list l →
      get_shard_from_list (PyStrOrList.list l) dep.versioned_path =
        Except.ok c →
      sub_static_version (b1 ++ Piece.hit rel :: b2) m rp sup sd =
        Except.ok (s1 ++
          (rstripSlash c ++ "/" ++ lstripSlash dep.versioned_path) ++ s2)) := by
  constructor
  · rintro s rfl
    unfold sub_static_version
    rw [subPieces_append, h1]
    simp [subPieces, replacePiece, hfound, h2, String.append_assoc]
  · rintro l c rfl hc
    unfold sub_static_version
    rw [subPieces_append, h1]
    simp [subPieces, replacePiece, hfound, hc, h2, String.append_assoc]

set_option maxRecDepth 20000 in
/-- C2 witness: the logo reference is rewritten with the sharded CDN
domain chosen for its versioned path. -/
theorem sub_static_version_replaces_found_witness :
    sub_static_version
      [Piece.lit "url(", Piece.hit "logo.png", Piece.lit ")"] mAssets
      (PyStrOrList.list ["http://cdn1"]) "/static/" "static" =
      Except.ok ("url(" ++
        (rstripSlash "http://cdn1" ++ "/" ++ lstripSlash "logo.v9.png") ++
        ")") :=
  (sub_static_version_replaces_found mAssets
    (PyStrOrList.list ["http://cdn1"]) "/static/" "static" "logo.png"
    ⟨"logo.v9.png"⟩ [Piece.lit "url("] [Piece.lit ")"] "url(" ")" rfl rfl
    rfl).2 ["http://cdn1"] "http://cdn1" rfl rfl

/-- C9 witness: a match-free blob passes through unchanged even with a
degenerate (empty-list) replacement prefix. -/
theorem sub_static_version_no_match_identity_witness :
    sub_static_version [Piece.lit "no urls here"] ⟨[], []⟩
      (PyStrOrList.list []) "/static/" "static" =
      Except.ok (renderBlob "/static/" [Piece.lit "no urls here"]) :=
  sub_static_version_no_match_identity _ _ _ _ _ (by decide)

theorem proxy_key_ne (pre fn : String) : pre ++ "/" ++ fn ≠ fn := by
  intro h
  have hlen := congrArg String.length h
  rw [String.length_append, String.length_append] at hlen
  have hone : ("/" : String).length = 1 := rfl
  omega

/-- C1 counterexample: a task whose source file exists but whose CDN key
is already in the store performs a single write (the proxy copy), not
two. -/
theorem start_upload_existing_key_single_write :
    (fsEx "out/img.v1.png").isSome = true ∧
    (start_upload_file storeCdnOnly exSettings mImg fsEx "img.v1.png"
      "out/img.v1.png").2.1 = [⟨"cdn/img.v1.png", "PNG"⟩] ∧
    (start_upload_file storeCdnOnly exSettings mImg fsEx "img.v1.png"
      "out/img.v1.png").2.1.length ≠ 2 :=
  ⟨rfl, rfl, by decide⟩

/-- C1 (amended): when the source file exists, neither destination key
is already in the store, neither put fails, and both rewrite passes
succeed, the task performs exactly two writes of the same original
content — the bare key `file_name` rewritten against `cdn_url_prefix`,
and the key `strip(local_cdn_url_prefix) + '/' + file_name` rewritten
against `local_cdn_url_prefix` — each body rewritten iff its destination
key name ends in `.css` or `.js` (case-sensitively). -/
theorem start_upload_two_writes (store : Store) (st : Settings)
    (m : Manifest) (fs : String → Option (List Piece))
    (file_name file_path : String) (dat : List Piece) (dc dl : String)
    (hfs : fs file_path = some dat)
    (hk1 : file_name ∉ store.keys)
    (hk2 : stripSlash st.localCdnUrlPre ++ "/" ++ file_name ∉ store.keys)
    (hf1 : file_name ∉ store.failPut)
    (hf2 : stripSlash st.localCdnUrlPre ++ "/" ++ file_name ∉ store.failPut)
    (hc : sub_static_version dat m st.cdnUrlPre st.staticUrlPre st.staticDir
      = Except.ok dc)
    (hl : sub_static_version dat m (PyStrOrList.str st.localCdnUrlPre)
      st.staticUrlPre st.staticDir = Except.ok dl) :
    start_upload_file store st m fs file_name file_path =
      (⟨(stripSlash st.localCdnUrlPre ++ "/" ++ file_name) :: file_name ::
          store.keys, store.failPut⟩,
        [⟨file_name,
          if rewriteEligible file_name then dc
          else renderBlob st.staticUrlPre dat⟩,
         ⟨stripSlash st.localCdnUrlPre ++ "/" ++ file_name,
          if rewriteEligible (stripSlash st.localCdnUrlPre ++ "/" ++ file_name)
          then dl else renderBlob st.staticUrlPre dat⟩],
        none) := by
  have hne : stripSlash st.localCdnUrlPre ++ "/" ++ file_name ≠ file_name :=
    proxy_key_ne _ _
  have hpk2 : stripSlash st.localCdnUrlPre ++ "/" ++ file_name ∉
      file_name :: store.keys := by
    intro hmem
    rcases List.mem_cons.mp hmem with h | h
    · exact hne h
    · exact hk2 h
  by_cases he1 : rewriteEligible file_name <;>
    by_cases he2 :
      rewriteEligible (stripSlash st.localCdnUrlPre ++ "/" ++ file_name) <;>
      simp [start_upload_file, upload_file, s3put, hfs, hk1, hk2, hf1, hf2,
        hpk2, he1, he2, hc, hl]

set_option maxRecDepth 40000 in
/-- C1 witness: a fresh store receives exactly the CDN copy and the
proxy copy of a stylesheet, each with its namespace's rewritten body. -/
theorem start_upload_two_writes_witness :
    start_upload_file ⟨[], []⟩ exSettings mAssets fsEx "site.v2.css"
      "out/site.v2.css" =
      (⟨["cdn/site.v2.css", "site.v2.css"], []⟩,
        [⟨"site.v2.css", "url(http://cdn1/logo.v9.png)"⟩,
         ⟨"cdn/site.v2.css", "url(/cdn/logo.v9.png)"⟩],
        none) := by
  have h := start_upload_two_writes ⟨[], []⟩ exSettings mAssets fsEx
    "site.v2.css" "out/site.v2.css"
    [Piece.lit "url(", Piece.hit "logo.png", Piece.lit ")"]
    "url(http://cdn1/logo.v9.png)" "url(/cdn/logo.v9.png)"
    rfl (by decide) (by decide) (by decide) (by decide) rfl rfl
  exact h

theorem upload_file_error (store : Store) (st : Settings) (m : Manifest)
    (keyName : String) (dat : List Piece) (forCdn : Bool) (s1 : Store)
    (ws1 : List Write) (e : PyError)
    (h : upload_file store st m keyName dat forCdn = (s1, ws1, some e)) :
    s1 = store ∧ ws1 = [] := by
  unfold upload_file s3put at h
  by_cases hk : keyName ∈ store.keys
  · rw [if_pos hk] at h
    simp only [Prod.mk.injEq] at h
    exact absurd h.2.2 (by simp)
  · rw [if_neg hk] at h
    by_cases he : rewriteEligible keyName = true
    · rw [if_pos he] at h
      rcases hsub : sub_static_version dat m
          (if forCdn then st.cdnUrlPre else PyStrOrList.str st.localCdnUrlPre)
          st.staticUrlPre st.staticDir with e' | nd
      · rw [hsub] at h
        simp only [Prod.mk.injEq] at h
        exact ⟨h.1.symm, h.2.1.symm⟩
      · rw [hsub] at h
        by_cases hf : keyName ∈ store.failPut
        · simp only [if_pos hf, Prod.mk.injEq] at h
          exact ⟨h.1.symm, h.2.1.symm⟩
        · simp only [if_neg hf, Prod.mk.injEq] at h
          exact absurd h.2.2 (by simp)
    · rw [if_neg he] at h
      by_cases hf : keyName ∈ store.failPut
      · rw [if_pos hf] at h
        simp only [Prod.mk.injEq] at h
        exact ⟨h.1.symm, h.2.1.symm⟩
      · rw [if_neg hf] at h
        simp only [Prod.mk.injEq] at h
        exact absurd h.2.2 (by simp)

/-- C10: within one task the CDN write runs first; if it raises, the
proxy write is never attempted — the task stops with the CDN error and
nothing written, and the worker loop records exactly one error record
`(error, worker)` for the task, leaving the proxy key unwritten. -/
theorem cdn_failure_short_circuits (store : Store) (st : Settings)
    (m : Manifest) (fs : String → Option (List Piece))
    (file_name file_path : String) (dat : List Piece) (wid : Nat)
    (errs : List (PyError × Nat)) (s1 : Store) (ws1 : List Write)
    (e : PyError)
    (hfs : fs file_path = some dat)
    (hcdn : upload_file store st m file_name dat true = (s1, ws1, some e)) :
    start_upload_file store st m fs file_name file_path =
      (store, [], some e) ∧
    run_task store st m fs wid errs (file_name, file_path) =
      (store, [], errs ++ [(e, wid)]) := by
  obtain ⟨h1, h2⟩ := upload_file_error store st m file_name dat true s1 ws1 e hcdn
  rw [h1, h2] at hcdn
  have hstart : start_upload_file store st m fs file_name file_path =
      (store, [], some e) := by
    unfold start_upload_file
    rw [hfs]
    simp [hcdn]
  refine ⟨hstart, ?_⟩
  unfold run_task
  rw [hstart]

/-- C10 witness: with a store whose put of the bare image key raises,
the task yields no write and one recorded error. -/
theorem cdn_failure_short_circuits_witness :
    start_upload_file storeFailCdn exSettings mImg fsEx "img.v1.png"
      "out/img.v1.png" =
      (storeFailCdn, [], some (PyError.putFailed "img.v1.png")) ∧
    run_task storeFailCdn exSettings mImg fsEx 3 []
      ("img.v1.png", "out/img.v1.png") =
      (storeFailCdn, [], [(PyError.putFailed "img.v1.png", 3)]) :=
  cdn_failure_short_circuits storeFailCdn exSettings mImg fsEx "img.v1.png"
    "out/img.v1.png" [Piece.lit "PNG"] 3 [] storeFailCdn []
    (PyError.putFailed "img.v1.png") rfl rfl

theorem upload_file_exists_skip (store : Store) (st : Settings)
    (m : Manifest) (keyName : String) (dat : List Piece) (forCdn : Bool)
    (h : keyName ∈ store.keys) :
    upload_file store st m keyName dat forCdn = (store, [], none) := by
  unfold upload_file
  rw [if_pos h]

theorem start_upload_file_exists_skip (store : Store) (st : Settings)
    (m : Manifest) (fs : String → Option (List Piece))
    (file_name file_path : String) (dat : List Piece)
    (hfs : fs file_path = some dat)
    (h1 : file_name ∈ store.keys)
    (h2 : stripSlash st.localCdnUrlPre ++ "/" ++ file_name ∈ store.keys) :
    start_upload_file store st m fs file_name file_path =
      (store, [], none) := by
  unfold start_upload_file
  rw [hfs]
  simp [upload_file_exists_skip _ _ _ _ dat _ h1,
    upload_file_exists_skip _ _ _ _ dat _ h2]

theorem run_tasks_all_exist (st : Settings) (m : Manifest)
    (fs : String → Option (List Piece)) (wid : Nat) (store : Store)
    (tasks : List (String × String))
    (hall : ∀ t ∈ tasks, (fs t.2).isSome = true ∧ t.1 ∈ store.keys ∧
      stripSlash st.localCdnUrlPre ++ "/" ++ t.1 ∈ store.keys) :
    ∀ errs, run_tasks st m fs wid store errs tasks = (store, [], errs) := by
  induction tasks with
  | nil => intro errs; rfl
  | cons t ts ih =>
    intro errs
    obtain ⟨hsome, h1, h2⟩ := hall t (List.mem_cons_self _ _)
    obtain ⟨d, hd⟩ := Option.isSome_iff_exists.mp hsome
    have hstart := start_upload_file_exists_skip store st m fs t.1 t.2 d hd h1 h2
    have hrest := ih (fun u hu => hall u (List.mem_cons_of_mem _ hu)) errs
    unfold run_tasks run_task
    simp [hstart, hrest]

/-- C5: a destination key the store already holds is skipped — no write,
no error — and consequently re-running a task set whose destination keys
all exist (and whose source files still exist) performs zero writes,
leaves the store unchanged, and `upload_assets` still returns success. -/
theorem upload_second_run_idempotent (m : Manifest) (st : Settings)
    (fs : String → Option (List Piece)) (store : Store)
    (tasks : List (String × String))
    (hcollect : collect_to_upload m st fs = Except.ok tasks)
    (hall : ∀ t ∈ tasks, (fs t.2).isSome = true ∧ t.1 ∈ store.keys ∧
      stripSlash st.localCdnUrlPre ++ "/" ++ t.1 ∈ store.keys) :
    (∀ keyName dat forCdn, keyName ∈ store.keys →
      upload_file store st m keyName dat forCdn = (store, [], none)) ∧
    upload_assets m st fs store false = Except.ok (store, [], [], true) := by
  constructor
  · intro k d fc hk
    exact upload_file_exists_skip store st m k d fc hk
  · unfold upload_assets
    rw [hcollect]
    simp [run_tasks_all_exist st m fs 0 store tasks hall []]

/-- C5 witness: re-running the image task against a store that already
holds both destination keys writes nothing and succeeds. -/
theorem upload_second_run_idempotent_witness :
    upload_assets mImg exSettings fsEx storeFull false =
      Except.ok (storeFull, [], [], true) :=
  (upload_second_run_idempotent mImg exSettings fsEx storeFull
    [("img.v1.png", "out/img.v1.png")] rfl (by decide)).2

/-- C4: with `skip` true, `upload_assets` performs no object-store I/O
(store untouched, zero writes) and returns `true`; with `skip` false it
returns `true` iff the shared error list is empty after the queue
drains. -/
theorem upload_assets_skip_and_success (m : Manifest) (st : Settings)
    (fs : String → Option (List Piece)) (store : Store)
    (tasks : List (String × String))
    (hcollect : collect_to_upload m st fs = Except.ok tasks) :
    upload_assets m st fs store true = Except.ok (store, [], [], true) ∧
    ∀ s2 ws errs b,
      upload_assets m st fs store false = Except.ok (s2, ws, errs, b) →
      (b = true ↔ errs = []) := by
  constructor
  · unfold upload_assets
    rw [hcollect]
    rfl
  · intro s2 ws errs b h
    have hu : upload_assets m st fs store false =
        Except.ok ((run_tasks st m fs 0 store [] tasks).1,
          (run_tasks st m fs 0 store [] tasks).2.1,
          (run_tasks st m fs 0 store [] tasks).2.2,
          (run_tasks st m fs 0 store [] tasks).2.2.isEmpty) := by
      unfold upload_assets
      rw [hcollect]
      rfl
    have hh := hu.symm.trans h
    simp only [Except.ok.injEq, Prod.mk.injEq] at hh
    obtain ⟨_, _, h3, h4⟩ := hh
    rw [← h3, ← h4]
    simp

/-- C4 witness: skipping the image task set touches nothing and
returns success. -/
theorem upload_assets_skip_and_success_witness :
    upload_assets mImg exSettings fsEx ⟨[], []⟩ true =
      Except.ok (⟨[], []⟩, [], [], true) :=
  (upload_assets_skip_and_success mImg exSettings fsEx ⟨[], []⟩
    [("img.v1.png", "out/img.v1.png")] rfl).1

theorem collect_blocks_ok_present (st : Settings)
    (fs : String → Option (List Piece)) :
    ∀ (bs : List (String × DepSpec)) (acc r : List (String × String)),
    collect_blocks st fs bs acc = Except.ok r →
    ∀ kd ∈ bs,
      (fs (make_output_path st.outputDir kd.2.versioned_path)).isSome
        = true := by
  intro bs
  induction bs with
  | nil =>
    intro acc r h kd hkd
    cases hkd
  | cons b rest ih =>
    intro acc r h kd hkd
    obtain ⟨bn, bd⟩ := b
    unfold collect_blocks at h
    cases hp : fs (make_output_path st.outputDir bd.versioned_path) with
    | none =>
      rw [hp] at h
      simp at h
    | some d =>
      rw [hp] at h
      simp at h
      rcases List.mem_cons.mp hkd with hkd' | hkd'
      · subst hkd'
        rw [hp]
        rfl
      · exact ih _ _ h kd hkd'

theorem collect_assets_ok_present (st : Settings)
    (fs : String → Option (List Piece)) :
    ∀ (as : List (String × DepSpec)) (acc r : List (String × String)),
    collect_assets st fs as acc = Except.ok r →
    ∀ kd ∈ as, should_skip kd.1 = false → (fs kd.1).isSome = true := by
  intro as
  induction as with
  | nil =>
    intro acc r h kd hkd
    cases hkd
  | cons a rest ih =>
    intro acc r h kd hkd hsk
    obtain ⟨ap, ad⟩ := a
    unfold collect_assets at h
    by_cases hskip : should_skip ap = true
    · rw [if_pos hskip] at h
      rcases List.mem_cons.mp hkd with hkd' | hkd'
      · subst hkd'
        rw [hskip] at hsk
        cases hsk
      · exact ih _ _ h kd hkd' hsk
    · rw [if_neg hskip] at h
      cases hp : fs ap with
      | none =>
        rw [hp] at h
        simp at h
      | some d =>
        rw [hp] at h
        simp at h
        rcases List.mem_cons.mp hkd with hkd' | hkd'
        · subst hkd'
          rw [hp]
          rfl
        · exact ih _ _ h kd hkd' hsk

/-- C6: if any file the manifest references — a block's compiled output
path or an eligible (non-filtered) static asset path — is missing from
the filesystem, task-set assembly fails with the assertion, and
`upload_assets` propagates that failure for any store and either skip
flag: the run aborts before any task executes. -/
theorem upload_assets_missing_file_aborts (m : Manifest) (st : Settings)
    (fs : String → Option (List Piece)) (store : Store) (skip : Bool)
    (hmiss :
      (∃ kd ∈ m.blocks,
        fs (make_output_path st.outputDir kd.2.versioned_path) = none) ∨
      (∃ kd ∈ m.assets, should_skip kd.1 = false ∧ fs kd.1 = none)) :
    isOkE (collect_to_upload m st fs) = false ∧
    isOkE (upload_assets m st fs store skip) = false := by
  have hnok : ∀ tasks, collect_to_upload m st fs ≠ Except.ok tasks := by
    intro tasks hok
    unfold collect_to_upload at hok
    cases hcb : collect_blocks st fs m.blocks [] with
    | error e =>
      rw [hcb] at hok
      cases hok
    | ok acc =>
      rw [hcb] at hok
      rcases hmiss with ⟨kd, hkd, hnone⟩ | ⟨kd, hkd, hskne, hnone⟩
      · have hpres := collect_blocks_ok_present st fs m.blocks [] acc hcb kd hkd
        rw [hnone] at hpres
        cases hpres
      · have hpres :=
          collect_assets_ok_present st fs m.assets acc tasks hok kd hkd hskne
        rw [hnone] at hpres
        cases hpres
  constructor
  · cases hc : collect_to_upload m st fs with
    | error e => rfl
    | ok tasks => exact absurd hc (hnok tasks)
  · unfold upload_assets
    cases hc : collect_to_upload m st fs with
    | error e => rfl
    | ok tasks => exact absurd hc (hnok tasks)

/-- C6 witness: a manifest block whose compiled output is absent makes
assembly and the whole run fail. -/
theorem upload_assets_missing_file_aborts_witness :
    isOkE (collect_to_upload mMissing exSettings fsEx) = false ∧
    isOkE (upload_assets mMissing exSettings fsEx ⟨[], []⟩ false) = false :=
  upload_assets_missing_file_aborts mMissing exSettings fsEx ⟨[], []⟩ false
    (Or.inl ⟨("app", ⟨"app.v1.js"⟩), by decide, by decide⟩)

end Assetman
